import Mathlib

/-!
Shallow embedding of the Steam Input bridge in `src/src-tauri/src/lib.rs`
(the controller input core of the `diception` desktop shell).

Modelling conventions:
* Opaque `u64` native handles (action-set handles, action handles, controller
  handles) are modelled as `Nat`: the source never performs arithmetic on
  them, it only stores them, compares them with `0` and passes them back to
  the native SDK.
* Rust `HashMap<String, v>` values built by inserting pairwise-distinct keys
  are modelled as association lists `List (String × v)` in insertion order;
  `HashMap` iteration order is unspecified in Rust, the list order here is the
  insertion order of the source.
* `f32` analog values are modelled as `Float`; the source only copies them
  into the snapshot, no arithmetic is performed.
* The external steamworks SDK (`app.client` / `app.client.input()`) is
  modelled as an environment `Native` of response functions, one field per
  native call the source makes.  Every native call the source performs is
  also recorded in an effect trace (`List NativeCall`) so that order and
  absence of effects are provable.
* `state.lock().map_err(|e| e.to_string())?` is modelled by a parameter
  `lockFail : Option String`: `some e` means the mutex was poisoned and the
  lock call produced the error string `e`; `none` means the lock was
  acquired.  The guarded content (`Option<SteamApp>`) is the `st` parameter,
  and state-mutating commands return the updated content.
* `eprintln!` logging is not modelled (no observable effect on the API).
-/

/-- `steamworks::InputType` (mirrors the SDK's `ESteamInputType`): the native
controller-family codes that `input_type_str` matches on.  The source match
has a wildcard arm, so the full set of SDK codes is carried here. -/
inductive InputType where
  | Unknown
  | SteamController
  | XBox360Controller
  | XBoxOneController
  | GenericGamepad
  | PS4Controller
  | AppleMFiController
  | AndroidController
  | SwitchJoyConPair
  | SwitchJoyConSingle
  | SwitchProController
  | MobileTouch
  | PS3Controller
  | PS5Controller
  | SteamDeckController
deriving DecidableEq, Repr, Fintype

/-- `fn input_type_str(t: &steamworks::InputType) -> &'static str`
(src/src-tauri/src/lib.rs lines 41-54), arm for arm. -/
def input_type_str : InputType → String
  | InputType.PS4Controller => "ps4"
  | InputType.PS5Controller => "ps5"
  | InputType.XBox360Controller => "xbox360"
  | InputType.XBoxOneController => "xbox"
  | InputType.SwitchProController => "switch"
  | InputType.SwitchJoyConPair => "switch"
  | InputType.SwitchJoyConSingle => "switch"
  | InputType.SteamDeckController => "deck"
  | InputType.SteamController => "steam"
  | _ => "unknown"

/-- `struct InputHandles` (lib.rs lines 9-13): the Handle Cache. -/
structure InputHandles where
  action_set_game : Nat
  digital : List (String × Nat)
  analog : List (String × Nat)
deriving Repr

/-- `struct SteamApp` (lib.rs lines 17-22).  The `client` field is the native
session handle; its behaviour lives in the `Native` environment instead. -/
structure SteamApp where
  user_name : String
  steam_id : Nat
  input_handles : Option InputHandles
deriving Repr

/-- `struct ControllerState` (lib.rs lines 28-37): the serialisable
per-controller snapshot.  `[f32; 2]` becomes a `Float × Float` pair. -/
structure ControllerState where
  handle : Nat
  input_type : String
  actions : List (String × Bool)
  analogs : List (String × (Float × Float))

/-- One native SDK call made by the source, recorded in effect traces. -/
inductive NativeCall where
  | initInput
  | setManifestPath (path : String)
  | runFrame
  | runCallbacks
  | getActionSetHandle (name : String)
  | getDigitalHandle (name : String)
  | getAnalogHandle (name : String)
  | getConnectedControllers
  | activateActionSet (controller actionSet : Nat)
  | getInputType (controller : Nat)
  | getDigitalData (controller action : Nat)
  | getAnalogData (controller action : Nat)
deriving DecidableEq, Repr

/-- The native steamworks SDK as an environment of responses: one field per
native call the source makes, plus `manifestDir` for
`std::env::current_exe().ok().parent()` (`none` models either failure). -/
structure Native where
  initOk : Bool
  manifestDir : Option String
  actionSetHandle : String → Nat
  digitalHandle : String → Nat
  analogHandle : String → Nat
  connectedControllers : List Nat
  inputTypeFor : Nat → InputType
  digitalData : Nat → Nat → Bool
  analogDataX : Nat → Nat → Float
  analogDataY : Nat → Nat → Float
  digitalOrigins : Nat → Nat → Nat → List Nat
  glyphFor : Nat → String
  showBindingPanel : Nat → Bool

/-- The fixed digital action names of the Action Registry
(`digital_names`, lib.rs lines 115-120). -/
def digital_names : List String :=
  ["confirm", "cancel", "end_turn", "menu",
   "move_up", "move_down", "move_left", "move_right",
   "zoom_in", "zoom_out", "gamepad_drag",
   "cursor_speed_down", "cursor_speed_up"]

/-- The fixed analog action names of the Action Registry, in the insertion
order of lib.rs lines 127-128. -/
def analog_names : List String := ["cursor_move", "map_pan"]

/-- `fn steam_input_init` (lib.rs lines 89-134).  Returns the command result,
the mutex content after the call, and the trace of native calls made.
The source mutates `app.input_handles` in place; here the updated
`Option SteamApp` is returned. -/
def steam_input_init (lockFail : Option String) (st : Option SteamApp)
    (nat : Native) :
    Except String Bool × Option SteamApp × List NativeCall :=
  match lockFail with
  | some e => (Except.error e, st, [])
  | none =>
    match st with
    | none => (Except.error "Steam not available", none, [])
    | some app =>
      if nat.initOk = false then
        (Except.error "SteamAPI_ISteamInput_Init returned false", some app,
         [NativeCall.initInput])
      else
        let manifestTrace : List NativeCall :=
          match nat.manifestDir with
          | some dir =>
              [NativeCall.setManifestPath (dir ++ "/game_actions_X.vdf")]
          | none => []
        let action_set_game := nat.actionSetHandle "GameControls"
        let digital := digital_names.map fun n => (n, nat.digitalHandle n)
        let analog := analog_names.map fun n => (n, nat.analogHandle n)
        let trace :=
          [NativeCall.initInput] ++ manifestTrace ++
          [NativeCall.runFrame, NativeCall.getActionSetHandle "GameControls"] ++
          digital_names.map NativeCall.getDigitalHandle ++
          analog_names.map NativeCall.getAnalogHandle
        (Except.ok true,
         some { app with
                  input_handles :=
                    some { action_set_game := action_set_game,
                           digital := digital, analog := analog } },
         trace)

/-- The snapshot the poll loop body (lib.rs lines 156-173) assembles for one
connected nonzero controller handle. -/
def pollSnapshot (nat : Native) (hdls : InputHandles) (handle : Nat) :
    ControllerState :=
  { handle := handle
  , input_type := input_type_str (nat.inputTypeFor handle)
  , actions := hdls.digital.map fun p => (p.1, nat.digitalData handle p.2)
  , analogs := hdls.analog.map fun p =>
      (p.1, (nat.analogDataX handle p.2, nat.analogDataY handle p.2)) }

/-- The native calls the poll loop body makes for one connected nonzero
controller handle, in source order: activate the cached action set, read the
input type, read every cached digital action, read every cached analog
action. -/
def pollControllerTrace (hdls : InputHandles) (handle : Nat) :
    List NativeCall :=
  [NativeCall.activateActionSet handle hdls.action_set_game,
   NativeCall.getInputType handle] ++
  hdls.digital.map (fun p => NativeCall.getDigitalData handle p.2) ++
  hdls.analog.map (fun p => NativeCall.getAnalogData handle p.2)

/-- `fn steam_input_poll` (lib.rs lines 140-177).  Returns the command result
and the trace of native calls made.  The source's single loop interleaves
pushing snapshots and making native calls; its result list is the map of the
loop body over the nonzero handles, and its trace the concatenation of the
per-controller traces, both in enumeration order. -/
def steam_input_poll (lockFail : Option String) (st : Option SteamApp)
    (nat : Native) :
    Except String (List ControllerState) × List NativeCall :=
  match lockFail with
  | some e => (Except.error e, [])
  | none =>
    match st with
    | none => (Except.error "Steam not available", [])
    | some app =>
      match app.input_handles with
      | none => (Except.error "Steam Input not initialized", [])
      | some hdls =>
        let controllers := nat.connectedControllers
        let result :=
          (controllers.filter fun h => h ≠ 0).map (pollSnapshot nat hdls)
        let trace :=
          [NativeCall.runCallbacks, NativeCall.runFrame,
           NativeCall.getConnectedControllers] ++
          controllers.flatMap fun h =>
            if h = 0 then [] else pollControllerTrace hdls h
        (Except.ok result, trace)

/-- `fn steam_input_get_controller_type` (lib.rs lines 182-189). -/
def steam_input_get_controller_type (lockFail : Option String)
    (st : Option SteamApp) (nat : Native) (controller_handle : Nat) :
    Except String String :=
  match lockFail with
  | some e => Except.error e
  | none =>
    match st with
    | none => Except.error "Steam not available"
    | some _ =>
        Except.ok (input_type_str (nat.inputTypeFor controller_handle))

/-- The glyph-loop body of `fn steam_input_get_glyphs` (lib.rs lines
206-218) for one cached digital action entry: take the first bound origin
if any exist (`origins.first()`), resolve its glyph path, and produce the
entry only when the path is nonempty. -/
def glyphEntry (nat : Native) (controller_handle actionSet : Nat)
    (p : String × Nat) : Option (String × String) :=
  match (nat.digitalOrigins controller_handle actionSet p.2).head? with
  | none => none
  | some origin =>
      let path := nat.glyphFor origin
      if path = "" then none else some (p.1, path)

/-- `fn steam_input_get_glyphs` (lib.rs lines 195-221).  The source loop
inserts into a fresh map exactly the entries `glyphEntry` produces. -/
def steam_input_get_glyphs (lockFail : Option String) (st : Option SteamApp)
    (nat : Native) (controller_handle : Nat) :
    Except String (List (String × String)) :=
  match lockFail with
  | some e => Except.error e
  | none =>
    match st with
    | none => Except.error "Steam not available"
    | some app =>
      match app.input_handles with
      | none => Except.error "Steam Input not initialized"
      | some hdls =>
        Except.ok (hdls.digital.filterMap
          (glyphEntry nat controller_handle hdls.action_set_game))

/-- `fn steam_input_show_binding_panel` (lib.rs lines 225-232). -/
def steam_input_show_binding_panel (lockFail : Option String)
    (st : Option SteamApp) (nat : Native) (controller_handle : Nat) :
    Except String Bool :=
  match lockFail with
  | some e => Except.error e
  | none =>
    match st with
    | none => Except.error "Steam not available"
    | some _ => Except.ok (nat.showBindingPanel controller_handle)

/-! Concrete fixtures used by the witness theorems below. -/

/-- A concrete native environment: startup succeeds, three enumerated
controller handles (one of them the reserved `0`), every action bound. -/
def natW : Native :=
  { initOk := true
  , manifestDir := some "/opt/game"
  , actionSetHandle := fun _ => 7
  , digitalHandle := fun _ => 3
  , analogHandle := fun _ => 4
  , connectedControllers := [42, 0, 99]
  , inputTypeFor := fun _ => InputType.PS5Controller
  , digitalData := fun _ _ => true
  , analogDataX := fun _ _ => 0.5
  , analogDataY := fun _ _ => -0.2
  , digitalOrigins := fun _ _ _ => [11]
  , glyphFor := fun _ => "glyph.png"
  , showBindingPanel := fun _ => true }

/-- A concrete native environment whose input-subsystem startup fails. -/
def natF : Native := { natW with initOk := false }

/-- A session before Init: no cached handles. -/
def app0W : SteamApp :=
  { user_name := "tester", steam_id := 1, input_handles := none }

/-- The Handle Cache `steam_input_init` builds from `natW`. -/
def hdlsW : InputHandles :=
  { action_set_game := 7
  , digital := digital_names.map fun n => (n, 3)
  , analog := analog_names.map fun n => (n, 4) }

/-- The session after a successful Init against `natW`. -/
def app1W : SteamApp := { app0W with input_handles := some hdlsW }

/-- Keys of an association list with pairwise-distinct keys determine the
value: used for the Handle Cache, whose key lists are the Action Registry. -/
theorem alist_keys_nodup_unique {α β : Type} (l : List (α × β))
    (h : (l.map Prod.fst).Nodup) (k : α) (v₁ v₂ : β)
    (h1 : (k, v₁) ∈ l) (h2 : (k, v₂) ∈ l) : v₁ = v₂ := by
  induction l with
  | nil => cases h1
  | cons p t ih =>
    simp only [List.map_cons, List.nodup_cons] at h
    rcases List.mem_cons.mp h1 with h1 | h1 <;>
      rcases List.mem_cons.mp h2 with h2 | h2
    · rw [← h2] at h1; exact congrArg Prod.snd h1
    · exact absurd (List.mem_map.mpr ⟨(k, v₂), h2, by rw [← h1]⟩) h.1
    · exact absurd (List.mem_map.mpr ⟨(k, v₁), h1, by rw [← h2]⟩) h.1
    · exact ih h.2 h1 h2

/-- Claim C4: `input_type_str` (the ClassifyInputType core) is total over the
native controller-family codes: every code maps to one of the eight
pairwise-distinct classification values, the three native Switch
sub-variants all collapse to the single value `"switch"`, and a code maps to
`"unknown"` exactly when it is none of the nine recognised codes. -/
theorem classify_input_type_total :
    ∀ t : InputType,
      input_type_str t ∈
        ["ps4", "ps5", "xbox360", "xbox", "switch", "deck", "steam",
         "unknown"] ∧
      (input_type_str InputType.SwitchProController = "switch" ∧
       input_type_str InputType.SwitchJoyConPair = "switch" ∧
       input_type_str InputType.SwitchJoyConSingle = "switch") ∧
      (input_type_str t = "unknown" ↔
        t ∈ [InputType.Unknown, InputType.GenericGamepad,
             InputType.AppleMFiController, InputType.AndroidController,
             InputType.MobileTouch, InputType.PS3Controller]) ∧
      (["ps4", "ps5", "xbox360", "xbox", "switch", "deck", "steam",
        "unknown"].dedup.length = 8) := by
  decide

/-- The Handle Cache a successful `steam_input_init` stores: resolved from
the Action Registry names against the native environment. -/
def initHandles (nat : Native) : InputHandles :=
  { action_set_game := nat.actionSetHandle "GameControls"
  , digital := digital_names.map fun n => (n, nat.digitalHandle n)
  , analog := analog_names.map fun n => (n, nat.analogHandle n) }

/-- With the lock held and the session present, Init succeeds exactly when
the native startup succeeds, and then stores `initHandles`. -/
theorem steam_input_init_ok (app : SteamApp) (nat : Native)
    (hi : nat.initOk = true) :
    (steam_input_init none (some app) nat).1 = Except.ok true ∧
    (steam_input_init none (some app) nat).2.1 =
      some { app with input_handles := some (initHandles nat) } := by
  constructor <;> simp [steam_input_init, initHandles, hi]

/-- A successful Init implies the native startup reported success. -/
theorem steam_input_init_ok_of_result (app : SteamApp) (nat : Native)
    (hok : (steam_input_init none (some app) nat).1 = Except.ok true) :
    nat.initOk = true := by
  cases hi : nat.initOk with
  | true => rfl
  | false => simp [steam_input_init, hi] at hok

/-- Claim C2: after a successful Init, the Handle Cache holds exactly one
action-handle entry per logical name of the Action Registry, partitioned by
kind: the digital map's keys are exactly the 13 digital names and the analog
map's keys are exactly the 2 analog names, each list without duplicates. -/
theorem init_handle_cache_exact (nat : Native) (app app' : SteamApp)
    (hok : (steam_input_init none (some app) nat).1 = Except.ok true)
    (hst : (steam_input_init none (some app) nat).2.1 = some app') :
    ∃ hdls, app'.input_handles = some hdls ∧
      hdls.digital.map Prod.fst = digital_names ∧
      hdls.analog.map Prod.fst = analog_names ∧
      digital_names.Nodup ∧ analog_names.Nodup := by
  have hi := steam_input_init_ok_of_result app nat hok
  rw [(steam_input_init_ok app nat hi).2] at hst
  obtain rfl := Option.some.inj hst
  refine ⟨initHandles nat, rfl, ?_, ?_, by decide, by decide⟩
  · simp [initHandles, List.map_map, Function.comp_def]
  · simp [initHandles, List.map_map, Function.comp_def]

/-- Claim C2 witness: the theorem applied to the concrete environment
`natW` and the pre-Init session `app0W`. -/
theorem init_handle_cache_exact_witness :
    (steam_input_init none (some app0W) natW).1 = Except.ok true ∧
    (steam_input_init none (some app0W) natW).2.1 = some app1W ∧
    ∃ hdls, app1W.input_handles = some hdls ∧
      hdls.digital.map Prod.fst = digital_names ∧
      hdls.analog.map Prod.fst = analog_names ∧
      digital_names.Nodup ∧ analog_names.Nodup :=
  ⟨rfl, rfl, init_handle_cache_exact natW app0W app1W rfl rfl⟩

/-- Claim C9: with the lock acquired and the session established, Init fails
with the InitError value (`"SteamAPI_ISteamInput_Init returned false"`)
exactly when the native input subsystem's startup call reports failure, the
error is an ordinary returned value, and the native startup call is made
exactly once per Init call — never retried internally. -/
theorem init_error_iff_native_failure (app : SteamApp) (nat : Native) :
    ((steam_input_init none (some app) nat).1 =
        Except.error "SteamAPI_ISteamInput_Init returned false" ↔
      nat.initOk = false) ∧
    (steam_input_init none (some app) nat).2.2.count NativeCall.initInput
      = 1 := by
  by_cases hi : nat.initOk = false
  · simp [steam_input_init, hi]
  · cases hd : nat.manifestDir <;>
      simp [steam_input_init, hi, hd, List.count_cons, List.count_append,
        digital_names, analog_names]

/-- Claim C7 (amended): when the native client session was never established
(the shared state holds no `SteamApp`), Init fails with the
SessionUnavailable error `"Steam not available"` and leaves the state empty,
and every later Poll also fails with the same SessionUnavailable error —
with no native calls made — rather than with the NotInitialized error. -/
theorem session_unavailable_init_poll (nat nat' : Native) :
    (steam_input_init none none nat).1 =
        Except.error "Steam not available" ∧
    (steam_input_init none none nat).2.1 = none ∧
    (steam_input_poll none none nat').1 =
        Except.error "Steam not available" ∧
    (steam_input_poll none none nat').2 = [] :=
  ⟨rfl, rfl, rfl, rfl⟩

/-- Claim C7 counterexample: Poll after an Init attempted against a
never-established session fails with `"Steam not available"` (the
SessionUnavailable error), which is not the NotInitialized error
`"Steam Input not initialized"` the claim announces. -/
theorem session_unavailable_poll_counterexample :
    (steam_input_init none none natW).1 =
        Except.error "Steam not available" ∧
    (steam_input_poll none ((steam_input_init none none natW).2.1)
        natW).1 = Except.error "Steam not available" ∧
    "Steam not available" ≠ "Steam Input not initialized" :=
  ⟨rfl, rfl, by decide⟩

/-- Claim C10: Init is atomic on failure: whenever `steam_input_init`
returns an error — lock failure, session unavailable, or native startup
failure — the mutex content (and so the `input_handles` field) is left
unchanged; in particular, when the session exists but Init has never
succeeded, later Poll and GetGlyphs calls still fail with the
NotInitialized error `"Steam Input not initialized"`. -/
theorem init_error_state_unchanged (lockFail : Option String)
    (st : Option SteamApp) (nat : Native) (e : String)
    (herr : (steam_input_init lockFail st nat).1 = Except.error e) :
    (steam_input_init lockFail st nat).2.1 = st ∧
    ∀ app, st = some app → app.input_handles = none →
      ∀ (nat' : Native) (ch : Nat),
        (steam_input_poll none st nat').1 =
          Except.error "Steam Input not initialized" ∧
        steam_input_get_glyphs none st nat' ch =
          Except.error "Steam Input not initialized" := by
  constructor
  · cases lockFail with
    | some e' => rfl
    | none =>
      cases st with
      | none => rfl
      | some app =>
        cases hi : nat.initOk with
        | false => simp [steam_input_init, hi]
        | true => simp [(steam_input_init_ok app nat hi).1] at herr
  · rintro app rfl hnone nat' ch
    exact ⟨by simp [steam_input_poll, hnone],
           by simp [steam_input_get_glyphs, hnone]⟩

/-- Claim C10 witness: the theorem at the native environment `natF`, whose
input-subsystem startup fails, applied to the pre-Init session `app0W`. -/
theorem init_error_state_unchanged_witness :
    (steam_input_init none (some app0W) natF).1 =
        Except.error "SteamAPI_ISteamInput_Init returned false" ∧
    (steam_input_init none (some app0W) natF).2.1 = some app0W ∧
    ∀ app, (some app0W : Option SteamApp) = some app →
      app.input_handles = none →
      ∀ (nat' : Native) (ch : Nat),
        (steam_input_poll none (some app0W) nat').1 =
          Except.error "Steam Input not initialized" ∧
        steam_input_get_glyphs none (some app0W) nat' ch =
          Except.error "Steam Input not initialized" :=
  ⟨rfl,
   (init_error_state_unchanged none (some app0W) natF
      "SteamAPI_ISteamInput_Init returned false" rfl).1,
   (init_error_state_unchanged none (some app0W) natF
      "SteamAPI_ISteamInput_Init returned false" rfl).2⟩

/-- Claim C3 (amended): every Poll call made while Init has not succeeded
fails with an empty effect trace — no callbacks, no frame advance, no
enumeration — and never partially succeeds; the error is the lock error
when the lock is poisoned, the SessionUnavailable error
`"Steam not available"` when the session was never established, and the
NotInitialized error `"Steam Input not initialized"` when the session
exists but the Handle Cache is empty. -/
theorem poll_before_init_fails (lockFail : Option String)
    (st : Option SteamApp) (nat : Native)
    (hpre : st = none ∨ ∃ app, st = some app ∧ app.input_handles = none) :
    (steam_input_poll lockFail st nat).2 = [] ∧
    ((∃ e, lockFail = some e ∧
        (steam_input_poll lockFail st nat).1 = Except.error e) ∨
     (lockFail = none ∧ st = none ∧
        (steam_input_poll lockFail st nat).1 =
          Except.error "Steam not available") ∨
     (lockFail = none ∧ (∃ app, st = some app ∧ app.input_handles = none) ∧
        (steam_input_poll lockFail st nat).1 =
          Except.error "Steam Input not initialized")) := by
  cases lockFail with
  | some e => exact ⟨rfl, Or.inl ⟨e, rfl, rfl⟩⟩
  | none =>
    rcases hpre with rfl | ⟨app, rfl, hnone⟩
    · exact ⟨rfl, Or.inr (Or.inl ⟨rfl, rfl, rfl⟩)⟩
    · exact ⟨by simp [steam_input_poll, hnone],
        Or.inr (Or.inr ⟨rfl, ⟨app, rfl, hnone⟩,
          by simp [steam_input_poll, hnone]⟩)⟩

/-- Claim C3 witness: the theorem at the session-established, pre-Init
state `some app0W` with a healthy lock. -/
theorem poll_before_init_fails_witness :
    ((some app0W : Option SteamApp) = none ∨
      ∃ app, (some app0W : Option SteamApp) = some app ∧
        app.input_handles = none) ∧
    ((steam_input_poll none (some app0W) natW).2 = [] ∧
     ((∃ e, (none : Option String) = some e ∧
        (steam_input_poll none (some app0W) natW).1 = Except.error e) ∨
      ((none : Option String) = none ∧ (some app0W : Option SteamApp) = none ∧
        (steam_input_poll none (some app0W) natW).1 =
          Except.error "Steam not available") ∨
      ((none : Option String) = none ∧
        (∃ app, (some app0W : Option SteamApp) = some app ∧
          app.input_handles = none) ∧
        (steam_input_poll none (some app0W) natW).1 =
          Except.error "Steam Input not initialized"))) :=
  ⟨Or.inr ⟨app0W, rfl, rfl⟩,
   poll_before_init_fails none (some app0W) natW (Or.inr ⟨app0W, rfl, rfl⟩)⟩

/-- Claim C3 counterexample: a Poll call in a pre-Init state (the session
was never established, so Init has never succeeded) fails with
`"Steam not available"` — the SessionUnavailable error, not the
NotInitialized error the claim announces for every pre-Init Poll. -/
theorem poll_before_init_counterexample :
    (steam_input_poll none none natW).1 =
        Except.error "Steam not available" ∧
    (steam_input_poll none none natW).2 = [] ∧
    "Steam not available" ≠ "Steam Input not initialized" :=
  ⟨rfl, rfl, by decide⟩

/-- Claim C8 (amended): a second call to Init is not guarded: it is
accepted again (returns `ok true`, no AlreadyInitialized rejection), and it
re-runs the full native startup sequence — its trace contains the native
input-subsystem init call — re-resolving and overwriting the Handle Cache;
against identical native responses the stored state is left equal to the
state after the first call (idempotent in effect). -/
theorem double_init_reruns_startup (app : SteamApp) (nat : Native)
    (hi : nat.initOk = true) :
    (steam_input_init none (steam_input_init none (some app) nat).2.1
        nat).1 = Except.ok true ∧
    (steam_input_init none (steam_input_init none (some app) nat).2.1
        nat).2.1 = (steam_input_init none (some app) nat).2.1 ∧
    NativeCall.initInput ∈
      (steam_input_init none (steam_input_init none (some app) nat).2.1
        nat).2.2 := by
  rw [(steam_input_init_ok app nat hi).2]
  refine ⟨(steam_input_init_ok _ nat hi).1, (steam_input_init_ok _ nat hi).2,
    ?_⟩
  cases hd : nat.manifestDir <;> simp [steam_input_init, hi, hd]

/-- Claim C8 witness: the theorem at the concrete environment `natW` and
the pre-Init session `app0W`. -/
theorem double_init_reruns_startup_witness :
    natW.initOk = true ∧
    ((steam_input_init none (steam_input_init none (some app0W) natW).2.1
        natW).1 = Except.ok true ∧
     (steam_input_init none (steam_input_init none (some app0W) natW).2.1
        natW).2.1 = (steam_input_init none (some app0W) natW).2.1 ∧
     NativeCall.initInput ∈
       (steam_input_init none (steam_input_init none (some app0W) natW).2.1
         natW).2.2) :=
  ⟨rfl, double_init_reruns_startup app0W natW rfl⟩

/-- Claim C8 counterexample: calling Init a second time after a successful
first call is not rejected — it returns `ok true` — and its effect trace
contains the native input-subsystem startup call again, so the unguarded
native startup sequence is re-run and the Handle Cache is re-populated,
against the claimed once-per-process population. -/
theorem double_init_counterexample :
    (steam_input_init none (steam_input_init none (some app0W) natW).2.1
        natW).1 = Except.ok true ∧
    NativeCall.initInput ∈
      (steam_input_init none (steam_input_init none (some app0W) natW).2.1
        natW).2.2 :=
  ⟨rfl, by decide⟩

/-- Claim C1: every ControllerSnapshot returned by a successful Poll after a
successful Init has a nonzero handle, its `actions` keys are exactly the 13
digital names of the Action Registry, and its `analogs` keys are exactly
the 2 analog names — no extra or missing keys. -/
theorem poll_snapshot_invariant (nat₀ nat : Native) (app₀ app₁ : SteamApp)
    (r : List ControllerState)
    (hok : (steam_input_init none (some app₀) nat₀).1 = Except.ok true)
    (hinit : (steam_input_init none (some app₀) nat₀).2.1 = some app₁)
    (hpoll : (steam_input_poll none (some app₁) nat).1 = Except.ok r) :
    ∀ c ∈ r, c.handle ≠ 0 ∧
      c.actions.map Prod.fst = digital_names ∧
      c.analogs.map Prod.fst = analog_names := by
  have hi := steam_input_init_ok_of_result app₀ nat₀ hok
  rw [(steam_input_init_ok app₀ nat₀ hi).2] at hinit
  obtain rfl := Option.some.inj hinit
  have hr :
      r = (nat.connectedControllers.filter fun k => k ≠ 0).map
        (pollSnapshot nat (initHandles nat₀)) := by
    have hpoll' := hpoll
    simp only [steam_input_poll] at hpoll'
    exact (Except.ok.inj hpoll').symm
  subst hr
  intro c hc
  obtain ⟨k, hk, rfl⟩ := List.mem_map.mp hc
  have hk' := List.mem_filter.mp hk
  refine ⟨by simpa using hk'.2, ?_, ?_⟩
  · simp [pollSnapshot, initHandles, List.map_map, Function.comp_def]
  · simp [pollSnapshot, initHandles, List.map_map, Function.comp_def]

/-- The Poll result for the concrete environment `natW` and the post-Init
session `app1W`: one snapshot per nonzero enumerated handle. -/
def rW : List ControllerState :=
  [pollSnapshot natW hdlsW 42, pollSnapshot natW hdlsW 99]

/-- Claim C1 witness: the theorem at the concrete environment `natW`, the
pre-Init session `app0W`, the post-Init session `app1W`, and the concrete
Poll result `rW`. -/
theorem poll_snapshot_invariant_witness :
    (steam_input_init none (some app0W) natW).1 = Except.ok true ∧
    (steam_input_init none (some app0W) natW).2.1 = some app1W ∧
    (steam_input_poll none (some app1W) natW).1 = Except.ok rW ∧
    ∀ c ∈ rW, c.handle ≠ 0 ∧
      c.actions.map Prod.fst = digital_names ∧
      c.analogs.map Prod.fst = analog_names :=
  ⟨rfl, rfl, rfl,
   poll_snapshot_invariant natW natW app0W app1W rW rfl rfl rfl⟩

/-- Claim C5: a Poll call on an initialized session always succeeds and
returns exactly one ControllerSnapshot per nonzero enumerated controller
handle, in enumeration order (an empty list — not an error — when no
controllers are enumerated); each snapshot is assembled by `pollSnapshot`
(input type, all cached digital reads, all cached analog reads), and the
effect trace is, in order: service callbacks, advance the frame, enumerate
controllers, then for each nonzero handle the per-controller calls of
`pollControllerTrace` (activate the cached action set, read the input type,
read every cached digital action, read every cached analog action). -/
theorem poll_effects_and_snapshots (app : SteamApp) (hdls : InputHandles)
    (nat : Native) (h : app.input_handles = some hdls) :
    ∃ r, (steam_input_poll none (some app) nat).1 = Except.ok r ∧
      r.map ControllerState.handle =
        nat.connectedControllers.filter (fun k => k ≠ 0) ∧
      (∀ c ∈ r, c = pollSnapshot nat hdls c.handle) ∧
      (nat.connectedControllers = [] → r = []) ∧
      (steam_input_poll none (some app) nat).2 =
        [NativeCall.runCallbacks, NativeCall.runFrame,
         NativeCall.getConnectedControllers] ++
        nat.connectedControllers.flatMap
          (fun k => if k = 0 then [] else pollControllerTrace hdls k) := by
  refine ⟨(nat.connectedControllers.filter fun k => k ≠ 0).map
      (pollSnapshot nat hdls), ?_, ?_, ?_, ?_, ?_⟩
  · simp [steam_input_poll, h]
  · simp [List.map_map, Function.comp_def, pollSnapshot]
  · intro c hc
    obtain ⟨k, _, rfl⟩ := List.mem_map.mp hc
    rfl
  · intro hempty
    simp [hempty]
  · simp [steam_input_poll, h]

/-- Claim C5 witness: the theorem at the post-Init session `app1W` and the
concrete environment `natW`, which enumerates the handles 42, 0 and 99. -/
theorem poll_effects_and_snapshots_witness :
    app1W.input_handles = some hdlsW ∧
    ∃ r, (steam_input_poll none (some app1W) natW).1 = Except.ok r ∧
      r.map ControllerState.handle =
        natW.connectedControllers.filter (fun k => k ≠ 0) ∧
      (∀ c ∈ r, c = pollSnapshot natW hdlsW c.handle) ∧
      (natW.connectedControllers = [] → r = []) ∧
      (steam_input_poll none (some app1W) natW).2 =
        [NativeCall.runCallbacks, NativeCall.runFrame,
         NativeCall.getConnectedControllers] ++
        natW.connectedControllers.flatMap
          (fun k => if k = 0 then [] else pollControllerTrace hdlsW k) :=
  ⟨rfl, poll_effects_and_snapshots app1W hdlsW natW rfl⟩

/-- Characterisation of the glyph-loop body: it produces an entry exactly
when the action's origin list is nonempty and the first origin's glyph path
resolves nonempty, and the entry carries that first origin's path. -/
theorem glyphEntry_eq_some (nat : Native) (ch aset : Nat) (p : String × Nat)
    (name path : String) :
    glyphEntry nat ch aset p = some (name, path) ↔
      p.1 = name ∧ ∃ o os, nat.digitalOrigins ch aset p.2 = o :: os ∧
        path = nat.glyphFor o ∧ nat.glyphFor o ≠ "" := by
  cases hl : nat.digitalOrigins ch aset p.2 with
  | nil => simp [glyphEntry, hl]
  | cons o os =>
    by_cases he : nat.glyphFor o = ""
    · simp [glyphEntry, hl, he]
    · simp only [glyphEntry, hl, List.head?_cons]
      rw [if_neg he]
      constructor
      · intro hx
        obtain ⟨h1, h2⟩ := Prod.ext_iff.mp (Option.some.inj hx)
        exact ⟨h1, o, os, rfl, h2.symm, he⟩
      · rintro ⟨h1, o', os', hco, hp, -⟩
        obtain ⟨rfl, rfl⟩ := List.cons.inj hco
        rw [h1, hp]

/-- Claim C6: a successful GetGlyphs call returns a mapping with an entry
for a digital action name exactly when that action has at least one bound
origin and the glyph path of its first origin is nonempty; every stored
value is the first bound origin's glyph path and is never the empty string;
an action whose origin list is empty never appears (and the whole mapping
may be empty). -/
theorem get_glyphs_first_origin (app : SteamApp) (hdls : InputHandles)
    (nat : Native) (ch : Nat) (m : List (String × String))
    (hh : app.input_handles = some hdls)
    (hnd : (hdls.digital.map Prod.fst).Nodup)
    (hm : steam_input_get_glyphs none (some app) nat ch = Except.ok m) :
    (∀ name, (∃ path, (name, path) ∈ m) ↔
        ∃ ah, (name, ah) ∈ hdls.digital ∧
          ∃ o os, nat.digitalOrigins ch hdls.action_set_game ah = o :: os ∧
            nat.glyphFor o ≠ "") ∧
    (∀ name path, (name, path) ∈ m →
      ∃ ah o os, (name, ah) ∈ hdls.digital ∧
        nat.digitalOrigins ch hdls.action_set_game ah = o :: os ∧
        path = nat.glyphFor o ∧ path ≠ "") ∧
    (∀ name ah, (name, ah) ∈ hdls.digital →
      nat.digitalOrigins ch hdls.action_set_game ah = [] →
      ∀ path, (name, path) ∉ m) := by
  have hm' : m = hdls.digital.filterMap
      (glyphEntry nat ch hdls.action_set_game) := by
    have h2 := hm
    simp only [steam_input_get_glyphs, hh] at h2
    exact (Except.ok.inj h2).symm
  subst hm'
  refine ⟨?_, ?_, ?_⟩
  · intro name
    constructor
    · rintro ⟨path, hp⟩
      obtain ⟨⟨pn, pa⟩, hpmem, hpe⟩ := List.mem_filterMap.mp hp
      obtain ⟨h1, o, os, hl, hpath, hne⟩ :=
        (glyphEntry_eq_some nat ch hdls.action_set_game (pn, pa)
          name path).mp hpe
      have h1' : pn = name := h1
      subst h1'
      exact ⟨pa, hpmem, o, os, hl, hne⟩
    · rintro ⟨ah, hmem, o, os, hl, hne⟩
      exact ⟨nat.glyphFor o, List.mem_filterMap.mpr ⟨(name, ah), hmem,
        (glyphEntry_eq_some nat ch hdls.action_set_game (name, ah)
          name (nat.glyphFor o)).mpr ⟨rfl, o, os, hl, rfl, hne⟩⟩⟩
  · intro name path hp
    obtain ⟨⟨pn, pa⟩, hpmem, hpe⟩ := List.mem_filterMap.mp hp
    obtain ⟨h1, o, os, hl, hpath, hne⟩ :=
      (glyphEntry_eq_some nat ch hdls.action_set_game (pn, pa)
        name path).mp hpe
    have h1' : pn = name := h1
    subst h1'
    exact ⟨pa, o, os, hpmem, hl, hpath, by rw [hpath]; exact hne⟩
  · intro name ah hmem hempty path hp
    obtain ⟨⟨pn, pa⟩, hpmem, hpe⟩ := List.mem_filterMap.mp hp
    obtain ⟨h1, o, os, hl, -, -⟩ :=
      (glyphEntry_eq_some nat ch hdls.action_set_game (pn, pa)
        name path).mp hpe
    have h1' : pn = name := h1
    subst h1'
    have hpa : pa = ah :=
      alist_keys_nodup_unique hdls.digital hnd pn pa ah hpmem hmem
    rw [hpa, hempty] at hl
    simp at hl

/-- The GetGlyphs result for the concrete environment `natW`: every digital
action has the bound origin 11, whose glyph path is `"glyph.png"`. -/
def glyphsW : List (String × String) :=
  digital_names.map fun n => (n, "glyph.png")

/-- Claim C6 witness: the theorem at the post-Init session `app1W`, the
concrete environment `natW` and controller handle 42, whose GetGlyphs
result is `glyphsW`. -/
theorem get_glyphs_first_origin_witness :
    app1W.input_handles = some hdlsW ∧
    (hdlsW.digital.map Prod.fst).Nodup ∧
    steam_input_get_glyphs none (some app1W) natW 42 = Except.ok glyphsW ∧
    ((∀ name, (∃ path, (name, path) ∈ glyphsW) ↔
        ∃ ah, (name, ah) ∈ hdlsW.digital ∧
          ∃ o os, natW.digitalOrigins 42 hdlsW.action_set_game ah = o :: os ∧
            natW.glyphFor o ≠ "") ∧
     (∀ name path, (name, path) ∈ glyphsW →
       ∃ ah o os, (name, ah) ∈ hdlsW.digital ∧
         natW.digitalOrigins 42 hdlsW.action_set_game ah = o :: os ∧
         path = natW.glyphFor o ∧ path ≠ "") ∧
     (∀ name ah, (name, ah) ∈ hdlsW.digital →
       natW.digitalOrigins 42 hdlsW.action_set_game ah = [] →
       ∀ path, (name, path) ∉ glyphsW)) :=
  ⟨rfl, by decide, rfl,
   get_glyphs_first_origin app1W hdlsW natW 42 glyphsW rfl (by decide) rfl⟩
